import Mathlib

/-!
# GearGuard maintenance workflow — verification development

Shallow embedding of the maintenance-request status workflow of the
GearGuard application: the transition validator and drag predicate of the
Kanban board (`src/src/pages/maintenance/MaintenanceKanban.tsx`), the
status-update mutation and its confirmation dialogs, the database-side
scrap trigger (`supabase/migrations/20251227060500_create_maintenance_requests.sql`),
and the request-creation form schema.
-/

namespace GearGuard

/-- Workflow status of a maintenance request
(`maintenance_status` enum: 'New', 'In Progress', 'Repaired', 'Scrap'). -/
inductive MaintenanceStatus where
  | New
  | InProgress
  | Repaired
  | Scrap
deriving DecidableEq, Repr

/-- Operational status of a piece of equipment
(`Equipment.status: 'Operational' | 'Down' | 'Maintenance' | 'Scrapped'`). -/
inductive EquipmentStatus where
  | Operational
  | Down
  | Maintenance
  | Scrapped
deriving DecidableEq, Repr

/-- A maintenance-request row, with the joined fields the Kanban board
loads (`equipment:equipment_id(name, ...)`).  Roles, priorities and types
are kept as strings, as the TypeScript code compares them as strings. -/
structure MaintenanceRequest where
  id : String
  title : String
  status : MaintenanceStatus
  priority : String
  type : String
  equipment_id : String
  equipment_name : Option String
  assigned_team_id : Option String
  assigned_technician_id : Option String
  scheduled_date : Option String
  duration : Option Int
  created_by : Option String
  organization_id : String
  updated_at : String
deriving DecidableEq, Repr

/-- An equipment row (only the fields the workflow touches). -/
structure Equipment where
  id : String
  status : EquipmentStatus
deriving DecidableEq, Repr

/-- A `request_logs` row inserted by the status-update mutation. -/
structure RequestLog where
  request_id : String
  user_id : Option String
  action : String
  notes : String
  organization_id : Option String
deriving DecidableEq, Repr

/-- JavaScript strict equality between `assigned_technician_id`
(`string | null`) and `user?.id` (`string | undefined`): two ids are
strictly equal only when both are present and equal; `null === undefined`
is `false`. -/
def jsIdEq : Option String → Option String → Bool
  | some a, some b => a = b
  | _, _ => false

/-- JavaScript truthiness of a nullable id (`!x` is `true` for `null`,
`undefined` and the empty string). -/
def jsIdTruthy : Option String → Bool
  | some s => s ≠ ""
  | none => false

/-- The fixed ordered column list of the board:
`const COLUMNS: MaintenanceStatus[] = ["New", "In Progress", "Repaired", "Scrap"]`. -/
def COLUMNS : List MaintenanceStatus :=
  [.New, .InProgress, .Repaired, .Scrap]

/-- The three edges of the status graph of the spec:
New → In Progress, In Progress → Repaired, In Progress → Scrap. -/
def isGraphEdge : MaintenanceStatus → MaintenanceStatus → Bool
  | .New, .InProgress => true
  | .InProgress, .Repaired => true
  | .InProgress, .Scrap => true
  | _, _ => false

/-- Result of `validateTransition`: `{ valid: boolean; reason?: string }`. -/
structure ValidationResult where
  valid : Bool
  reason : Option String
deriving DecidableEq, Repr

/-- `validateTransition(current, target, request)` from
`MaintenanceKanban.tsx` (lines 508–539).  `role` and `uid` are the ambient
`role` (`string | null`) and `user?.id` of the component. -/
def validateTransition (role : Option String) (uid : Option String)
    (current target : MaintenanceStatus) (request : MaintenanceRequest) :
    ValidationResult :=
  -- Admin and Manager can do anything
  if role = some "admin" ∨ role = some "manager" then ⟨true, none⟩
  -- Requester cannot change status
  else if role = some "requester" then
    ⟨false, some "Requesters cannot change work order status"⟩
  -- Technician rules
  else if role = some "technician" then
    -- Must be assigned to the request (or picking up from New)
    if current ≠ .New ∧ jsIdEq request.assigned_technician_id uid = false then
      ⟨false, some "You can only update requests assigned to you"⟩
    -- Allowed transitions
    else if current = .New ∧ target = .InProgress then ⟨true, none⟩
    else if current = .InProgress ∧ (target = .Repaired ∨ target = .Scrap) then
      ⟨true, none⟩
    else
      ⟨false, some "Cannot move: follow proper workflow New, In Progress, Repaired/Scrap"⟩
  else ⟨false, some "Invalid role"⟩

/-- `getCanDrag(request)` from `KanbanColumn` in `MaintenanceKanban.tsx`
(lines 326–345). -/
def getCanDrag (role : Option String) (userId : Option String)
    (request : MaintenanceRequest) : Bool :=
  -- Admin and Manager can move anything
  if role = some "admin" ∨ role = some "manager" then true
  -- Requester can't move cards
  else if role = some "requester" then false
  -- Technician rules
  else if role = some "technician" then
    -- Can move cards assigned to them
    if jsIdEq request.assigned_technician_id userId then true
    -- Can pick up unassigned cards from "New" if they're on the team
    else if request.status = .New ∧ jsIdTruthy request.assigned_technician_id = false
        ∧ jsIdTruthy request.assigned_team_id then true
    else false
  else false

/-! ## Database state and the scrap trigger -/

/-- The relational store rows the workflow touches. -/
structure DBState where
  requests : List MaintenanceRequest
  equipment : List Equipment
  logs : List RequestLog
deriving DecidableEq, Repr

/-- The `handle_scrap_equipment` trigger function of
`20251227060500_create_maintenance_requests.sql`: after an update of a
`maintenance_requests` row, if the new status is 'Scrap' and the old one
was not, set the referenced equipment row's status to 'Scrapped'. -/
def handle_scrap_equipment (oldStatus newStatus : MaintenanceStatus)
    (equipmentId : String) (equipment : List Equipment) : List Equipment :=
  if newStatus = .Scrap ∧ oldStatus ≠ .Scrap then
    equipment.map fun e =>
      if e.id = equipmentId then { e with status := .Scrapped } else e
  else equipment

/-- The field set built by the status-update mutation
(`const updates: any = { status, updated_at, ... }`): `status` and
`updated_at` are always present; `assigned_technician_id` and `duration`
only when the corresponding conditions held. -/
structure RequestUpdates where
  status : MaintenanceStatus
  updated_at : String
  assigned_technician_id : Option (Option String)
  duration : Option Int
deriving DecidableEq, Repr

/-- Applying an update record to one request row. -/
def applyUpdates (u : RequestUpdates) (r : MaintenanceRequest) :
    MaintenanceRequest :=
  { r with
    status := u.status
    updated_at := u.updated_at
    assigned_technician_id := u.assigned_technician_id.getD r.assigned_technician_id
    duration := match u.duration with
      | some d => some d
      | none => r.duration }

/-- `supabase.from("maintenance_requests").update(updates).eq("id", id)`:
updates every row whose id matches, and the `on_maintenance_scrap`
AFTER UPDATE trigger fires once per updated row within the same
transaction. -/
def dbUpdateRequest (db : DBState) (reqId : String) (u : RequestUpdates) :
    DBState :=
  { db with
    requests := db.requests.map fun r =>
      if r.id = reqId then applyUpdates u r else r
    equipment := db.requests.foldl
      (fun eqp r =>
        if r.id = reqId then
          handle_scrap_equipment r.status (applyUpdates u r).status
            r.equipment_id eqp
        else eqp)
      db.equipment }

/-! ## The status-update mutation (Workflow Executor) -/

/-- The argument of `updateStatus.mutate`:
`{ id, status, duration?, note? }`. -/
structure MutationInput where
  id : String
  status : MaintenanceStatus
  duration : Option Int
  note : Option String
deriving DecidableEq, Repr

/-- The `mutationFn` of `updateStatus` in `MaintenanceKanban.tsx`
(lines 467–506).  `localRequests` is the component's loaded `requests`
query data; `now` stands for `new Date().toISOString()`.  Returns the new
store state and whether the mutation resolved (reaching `onSuccess`); a
request id absent from the local list returns early with no write. -/
def updateStatus (role : Option String) (uid : Option String)
    (orgId : Option String) (now : String)
    (localRequests : List MaintenanceRequest) (input : MutationInput)
    (db : DBState) : DBState × Bool :=
  match localRequests.find? (fun r => r.id = input.id) with
  | none => (db, true)
  | some currentReq =>
    let updates : RequestUpdates :=
      { status := input.status
        updated_at := now
        assigned_technician_id :=
          if input.status = .InProgress
              ∧ jsIdTruthy currentReq.assigned_technician_id = false
              ∧ role = some "technician" then
            some uid
          else none
        -- `if (duration) updates.duration = duration` — 0 is falsy
        duration := match input.duration with
          | some d => if d ≠ 0 then some d else none
          | none => none }
    let db1 := dbUpdateRequest db input.id updates
    let db2 := match input.note with
      | some n =>
        { db1 with logs := db1.logs ++
            [{ request_id := input.id
               user_id := uid
               action := "Status changed"
               notes := n
               organization_id := orgId }] }
      | none => db1
    (db2, true)

/-! ## Confirmation dialogs -/

/-- Leading decimal digits of a character list, if the first character is
a digit (helper for `Number.parseInt`). -/
def leadingDigits : List Char → Option Nat
  | [] => none
  | c :: cs =>
    if c.isDigit then
      some ((c :: cs).takeWhile Char.isDigit |>.foldl
        (fun n d => 10 * n + (d.toNat - 48)) 0)
    else none

/-- `Number.parseInt(s)` restricted to base 10: skip leading whitespace,
accept an optional sign followed by at least one digit, and ignore any
trailing characters; `none` models `NaN`. -/
def parseIntJS (s : String) : Option Int :=
  match s.toList.dropWhile Char.isWhitespace with
  | '-' :: rest => (leadingDigits rest).map fun n => -(n : Int)
  | '+' :: rest => (leadingDigits rest).map fun n => (n : Int)
  | cs => (leadingDigits cs).map fun n => (n : Int)

/-- The dialog-related component state: `pendingTransition`, the
`duration` text input and the `workNotes` textarea. -/
structure DialogState where
  pendingTransition : Option (String × MaintenanceStatus)
  duration : String
  workNotes : String
  scrapReason : String
deriving DecidableEq, Repr

/-- `confirmDuration` (lines 589–606): returns the mutation issued, or
`none` when the dialog blocks (`no pendingTransition`, or
`isNaN(d) || d <= 0`). -/
def confirmDuration (s : DialogState) : Option MutationInput :=
  match s.pendingTransition with
  | none => none
  | some (id, targetStatus) =>
    match parseIntJS s.duration with
    | none => none
    | some d =>
      if d ≤ 0 then none
      else some
        { id := id
          status := targetStatus
          duration := some d
          note := some (if s.workNotes = "" then "Request marked as repaired"
                        else s.workNotes) }

/-- The observable effect of pressing "Mark Repaired": when
`confirmDuration` blocks, no mutation runs and the store is unchanged. -/
def confirmDurationStep (s : DialogState) (role uid orgId : Option String)
    (now : String) (localRequests : List MaintenanceRequest)
    (db : DBState) : DBState :=
  match confirmDuration s with
  | none => db
  | some input => (updateStatus role uid orgId now localRequests input db).1

/-- `confirmScrap` (lines 608–621): returns the mutation issued, or `none`
when there is no pending transition or the reason is blank. -/
def confirmScrap (s : DialogState) : Option MutationInput :=
  if s.pendingTransition = none ∨ s.scrapReason.trim = "" then none
  else
    s.pendingTransition.map fun (id, targetStatus) =>
      { id := id
        status := targetStatus
        duration := none
        note := some ("Equipment scrapped. Reason: " ++ s.scrapReason) }

/-! ## Board projection and change-feed listener -/

/-- `needle` occurs as a substring of `hay`
(JavaScript `hay.includes(needle)`). -/
def strIncludes (hay needle : String) : Bool :=
  decide (List.IsInfix needle.toList hay.toList)

/-- The `filteredRequests` computation of `MaintenanceKanban.tsx`
(lines 411–417): case-insensitive search over title and joined equipment
name, and the priority filter. -/
def filteredRequests (searchTerm priorityFilter : String)
    (requests : List MaintenanceRequest) : List MaintenanceRequest :=
  requests.filter fun r =>
    let matchesSearch :=
      strIncludes r.title.toLower searchTerm.toLower
      || (match r.equipment_name with
          | some n => strIncludes n.toLower searchTerm.toLower
          | none => false)
    let matchesPriority :=
      decide (priorityFilter = "all") || decide (r.priority = priorityFilter)
    matchesSearch && matchesPriority

/-- The column groupings the board renders: for each status of `COLUMNS`,
the filtered requests of that status
(`requests={filteredRequests.filter((r) => r.status === status)}`). -/
def boardColumns (searchTerm priorityFilter : String)
    (requests : List MaintenanceRequest) :
    List (MaintenanceStatus × List MaintenanceRequest) :=
  COLUMNS.map fun status =>
    (status, (filteredRequests searchTerm priorityFilter requests).filter
      fun r => r.status = status)

/-- The change-feed listener (lines 419–454): any event on the
organization's `maintenance_requests` invalidates the query, so the local
cache is replaced by the authoritative server rows; the toast side channel
does not affect the projection. -/
def handleFeedEvent (serverRequests : List MaintenanceRequest)
    (_localCache : List MaintenanceRequest) : List MaintenanceRequest :=
  serverRequests

/-! ## The request-creation form (`requestSchema` and its mutation) -/

/-- The values of the maintenance-request form, as validated by
`requestSchema` (zod object in `MaintenanceForm`). -/
structure RequestFormValues where
  title : String
  description : Option String
  equipment_id : String
  type : String
  priority : String
  status : MaintenanceStatus
  assigned_team_id : Option String
  assigned_technician_id : Option String
  equipment_category_id : Option String
  scheduled_date : Option String
  duration : Option Int
deriving DecidableEq, Repr

/-- The `requestSchema` zod validation: `title` and `equipment_id`
non-empty, `type` and `priority` in their enums, `duration` (when given)
at least 0, and the `.refine` clause: a Preventive request must carry a
truthy `scheduled_date` (`if (data.type === "Preventive" &&
!data.scheduled_date) return false`). -/
def requestSchemaCheck (v : RequestFormValues) : Bool :=
  decide (1 ≤ v.title.length) && decide (1 ≤ v.equipment_id.length)
  && (v.type == "Corrective" || v.type == "Preventive")
  && (v.priority == "Low" || v.priority == "Medium" || v.priority == "High")
  && (match v.duration with
      | some d => decide (0 ≤ d)
      | none => true)
  && !(v.type == "Preventive" && !(jsIdTruthy v.scheduled_date))

/-- The insert payload of the form's mutation (create path):
`scheduled_date: scheduled_date || null`, `duration: duration || null`,
`created_by` set to the acting user, and a database-generated id. -/
def createPayloadRow (v : RequestFormValues) (uid orgId freshId now : String) :
    MaintenanceRequest :=
  { id := freshId
    title := v.title
    status := v.status
    priority := v.priority
    type := v.type
    equipment_id := v.equipment_id
    equipment_name := none
    assigned_team_id := v.assigned_team_id
    assigned_technician_id := v.assigned_technician_id
    scheduled_date := if jsIdTruthy v.scheduled_date then v.scheduled_date else none
    duration := match v.duration with
      | some d => if d ≠ 0 then some d else none
      | none => none
    created_by := some uid
    organization_id := orgId
    updated_at := now }

/-- `form.handleSubmit((v) => mutation.mutate(v))` on the create path:
the zod resolver blocks submission when `requestSchemaCheck` fails (no
write occurs); otherwise the payload row is inserted. -/
def submitCreateForm (v : RequestFormValues) (uid orgId freshId now : String)
    (db : DBState) : DBState :=
  if requestSchemaCheck v then
    { db with requests := db.requests ++ [createPayloadRow v uid orgId freshId now] }
  else db

/-- `supabase.from("maintenance_requests").select("*").eq("id", id).single()`:
the read-back of a stored request by id. -/
def readBackRequest (db : DBState) (id : String) : Option MaintenanceRequest :=
  db.requests.find? fun r => r.id = id

/-! ## Sample data used in concrete evaluations -/

/-- A concrete request used to instantiate theorems. -/
def sampleRequest : MaintenanceRequest :=
  { id := "r1"
    title := "Pump vibration excessive"
    status := .New
    priority := "High"
    type := "Corrective"
    equipment_id := "e1"
    equipment_name := some "Pump"
    assigned_team_id := some "team1"
    assigned_technician_id := none
    scheduled_date := none
    duration := none
    created_by := some "creator"
    organization_id := "org1"
    updated_at := "2025-12-27T00:00:00Z" }

/-- A Repaired request assigned to technician "T". -/
def repairedOwnRequest : MaintenanceRequest :=
  { sampleRequest with status := .Repaired, assigned_technician_id := some "T" }

/-- A store holding `sampleRequest` and its (still active) equipment. -/
def sampleDB : DBState :=
  { requests := [sampleRequest]
    equipment := [{ id := "e1", status := .Operational }]
    logs := [] }

/-! ## Helper lemmas about the validator -/

/-- A role that is none of admin, manager, technician (requester, a null
role, or an unknown role string) is always rejected. -/
lemma validateTransition_valid_of_other_role (role uid : Option String)
    (current target : MaintenanceStatus) (request : MaintenanceRequest)
    (hna : role ≠ some "admin") (hnm : role ≠ some "manager")
    (hnt : role ≠ some "technician") :
    (validateTransition role uid current target request).valid = false := by
  unfold validateTransition
  by_cases h2 : role = some "requester"
  · rw [if_neg (fun h => h.elim hna hnm), if_pos h2]
  · rw [if_neg (fun h => h.elim hna hnm), if_neg h2, if_neg hnt]

/-- Whenever the validator accepts a technician, the attempted pair is a
graph edge. -/
lemma validateTransition_technician_edge (uid : Option String)
    (current target : MaintenanceStatus) (request : MaintenanceRequest)
    (h : (validateTransition (some "technician") uid current target
      request).valid = true) :
    isGraphEdge current target = true := by
  cases current <;> cases target <;>
    first
      | rfl
      | (exfalso
         simp only [validateTransition] at h
         split_ifs at h <;> simp_all)

/-! ## Claim theorems -/

/-- C2: for every role other than admin and manager (requester,
technician, and the no-role/unknown-role case), and every
(currentStatus, targetStatus) pair that is not one of the three edges
New→In Progress, In Progress→Repaired, In Progress→Scrap, the transition
validator returns allowed=false. -/
theorem nonPrivileged_nonEdge_rejected (role uid : Option String)
    (current target : MaintenanceStatus) (request : MaintenanceRequest)
    (hna : role ≠ some "admin") (hnm : role ≠ some "manager")
    (hedge : isGraphEdge current target = false) :
    (validateTransition role uid current target request).valid = false := by
  by_cases ht : role = some "technician"
  · subst ht
    by_cases hv :
        (validateTransition (some "technician") uid current target
          request).valid = true
    · exact absurd
        (validateTransition_technician_edge uid current target request hv)
        (by simp [hedge])
    · simpa using hv
  · exact validateTransition_valid_of_other_role role uid current target
      request hna hnm ht

/-- Witness for C2: a technician attempting the skipping pair
New → Repaired is rejected. -/
theorem nonPrivileged_nonEdge_rejected_witness :
    isGraphEdge .New .Repaired = false ∧
    (validateTransition (some "technician") (some "T") .New .Repaired
      sampleRequest).valid = false :=
  ⟨rfl, nonPrivileged_nonEdge_rejected (some "technician") (some "T")
    .New .Repaired sampleRequest (by decide) (by decide) rfl⟩

/-- C7: for role=requester, the transition validator returns
allowed=false for every (currentStatus, targetStatus) pair, including the
legal graph edges, and regardless of any assignment state of the card. -/
theorem requester_always_rejected (uid : Option String)
    (current target : MaintenanceStatus) (request : MaintenanceRequest) :
    (validateTransition (some "requester") uid current target
      request).valid = false := by
  unfold validateTransition
  rw [if_neg (by simp), if_pos rfl]

/-- Counterexample to C3: technician "V" is allowed to move a New request
assigned to the different technician "U" (the validator skips the
assignment check whenever the current status is New). -/
theorem technician_foreign_new_allowed_cex :
    ("U" : String) ≠ "V" ∧
    (validateTransition (some "technician") (some "V") .New .InProgress
      { sampleRequest with assigned_technician_id := some "U" }).valid
      = true := by
  exact ⟨by decide, by decide⟩

/-- C3 (amended): for role=technician, a request assigned to U is not
transitionable by technician V≠U for any (currentStatus, targetStatus)
pair whose current status is not New; from New, the validator permits
New→In Progress for V even though the request is assigned to U. -/
theorem technician_foreign_rejected_outside_new (v u : String)
    (current target : MaintenanceStatus) (request : MaintenanceRequest)
    (hass : request.assigned_technician_id = some u) (hne : u ≠ v)
    (hcur : current ≠ .New) :
    (validateTransition (some "technician") (some v) current target
      request).valid = false := by
  have hcond : current ≠ MaintenanceStatus.New ∧
      jsIdEq request.assigned_technician_id (some v) = false :=
    ⟨hcur, by simp [hass, jsIdEq, hne]⟩
  unfold validateTransition
  rw [if_neg (by simp), if_neg (by simp), if_pos rfl, if_pos hcond]

/-- Witness for the amended C3: technician "V" cannot move an In Progress
request assigned to "U" to Repaired. -/
theorem technician_foreign_rejected_outside_new_witness :
    ({ sampleRequest with assigned_technician_id := some "U" } :
      MaintenanceRequest).assigned_technician_id = some "U" ∧
    (validateTransition (some "technician") (some "V") .InProgress .Repaired
      { sampleRequest with assigned_technician_id := some "U" }).valid
      = false :=
  ⟨rfl, technician_foreign_rejected_outside_new "V" "U" .InProgress
    .Repaired _ rfl (by decide) (by decide)⟩

/-- Counterexample to C4: a Repaired request assigned to technician "T"
is marked draggable for "T", yet the full validator rejects every target
status (Repaired has no outbound edge), so "draggable iff some valid
outbound transition exists" fails for technicians. -/
theorem canDrag_without_valid_transition_cex :
    getCanDrag (some "technician") (some "T") repairedOwnRequest = true
    ∧ (validateTransition (some "technician") (some "T") .Repaired .New
        repairedOwnRequest).valid = false
    ∧ (validateTransition (some "technician") (some "T") .Repaired
        .InProgress repairedOwnRequest).valid = false
    ∧ (validateTransition (some "technician") (some "T") .Repaired
        .Repaired repairedOwnRequest).valid = false
    ∧ (validateTransition (some "technician") (some "T") .Repaired .Scrap
        repairedOwnRequest).valid = false := by
  refine ⟨?_, ?_, ?_, ?_, ?_⟩ <;> decide

/-- C4 (amended): for every role other than technician (admin, manager,
requester, and the no-role/unknown-role case), a card is draggable if and
only if some target status exists for which the full transition validator
returns allowed=true; for technicians the two sides can disagree. -/
theorem canDrag_iff_valid_exists_nonTechnician (role uid : Option String)
    (request : MaintenanceRequest) (hnt : role ≠ some "technician") :
    (getCanDrag role uid request = true ↔
      ∃ target,
        (validateTransition role uid request.status target request).valid
          = true) := by
  by_cases h1 : role = some "admin" ∨ role = some "manager"
  · constructor
    · intro _
      exact ⟨.New, by unfold validateTransition; rw [if_pos h1]⟩
    · intro _
      unfold getCanDrag
      rw [if_pos h1]
  · by_cases h2 : role = some "requester"
    · constructor
      · intro h
        unfold getCanDrag at h
        rw [if_neg h1, if_pos h2] at h
        simp at h
      · rintro ⟨t, ht⟩
        unfold validateTransition at ht
        rw [if_neg h1, if_pos h2] at ht
        simp at ht
    · constructor
      · intro h
        unfold getCanDrag at h
        rw [if_neg h1, if_neg h2, if_neg hnt] at h
        simp at h
      · rintro ⟨t, ht⟩
        rw [validateTransition_valid_of_other_role role uid request.status t
          request (fun ha => h1 (Or.inl ha)) (fun hm => h1 (Or.inr hm))
          hnt] at ht
        simp at ht

/-- Witness for the amended C4: an admin's card is draggable, derived
from the equivalence with the existing edge New → In Progress. -/
theorem canDrag_iff_valid_exists_nonTechnician_witness :
    getCanDrag (some "admin") (some "A") sampleRequest = true :=
  (canDrag_iff_valid_exists_nonTechnician (some "admin") (some "A")
    sampleRequest (by decide)).mpr ⟨.InProgress, by decide⟩

/-- C5: executing a transition to Repaired without a positive duration is
rejected before any write occurs — a blocked confirm leaves the store
unchanged, a missing or non-positive parsed duration blocks the confirm,
and a positive parsed duration issues the status update carrying it. -/
theorem repaired_requires_positive_duration (s : DialogState)
    (role uid orgId : Option String) (now : String)
    (localRequests : List MaintenanceRequest) (db : DBState) :
    (confirmDuration s = none →
      confirmDurationStep s role uid orgId now localRequests db = db)
    ∧ (parseIntJS s.duration = none → confirmDuration s = none)
    ∧ (∀ d : Int, parseIntJS s.duration = some d → d ≤ 0 →
        confirmDuration s = none)
    ∧ (∀ id ts (d : Int), s.pendingTransition = some (id, ts) →
        parseIntJS s.duration = some d → 0 < d →
        confirmDuration s = some
          { id := id, status := ts, duration := some d,
            note := some (if s.workNotes = ""
              then "Request marked as repaired" else s.workNotes) }) := by
  refine ⟨?_, ?_, ?_, ?_⟩
  · intro h
    unfold confirmDurationStep
    rw [h]
  · intro h
    unfold confirmDuration
    cases hp : s.pendingTransition with
    | none => rfl
    | some p =>
      obtain ⟨pid, pts⟩ := p
      rw [h]
  · intro d h hd
    unfold confirmDuration
    cases hp : s.pendingTransition with
    | none => rfl
    | some p =>
      obtain ⟨pid, pts⟩ := p
      rw [h]
      simp [hd]
  · intro id ts d hp h hd
    unfold confirmDuration
    rw [hp, h]
    simp [not_le.mpr hd]

/-- Witness for C5: duration input "45" with a pending Repaired
transition issues the update with duration 45, and duration input "0"
leaves the store untouched. -/
theorem repaired_requires_positive_duration_witness :
    confirmDuration ⟨some ("r1", .Repaired), "45", "", ""⟩ = some
      { id := "r1", status := .Repaired, duration := some 45,
        note := some "Request marked as repaired" }
    ∧ confirmDurationStep ⟨some ("r1", .Repaired), "0", "", ""⟩
        (some "technician") (some "T") (some "org1") "t0" [] sampleDB
        = sampleDB :=
  ⟨(repaired_requires_positive_duration ⟨some ("r1", .Repaired), "45", "", ""⟩
      (some "technician") (some "T") (some "org1") "t0" [] sampleDB).2.2.2
      "r1" .Repaired 45 rfl (by decide) (by decide),
   (repaired_requires_positive_duration ⟨some ("r1", .Repaired), "0", "", ""⟩
      (some "technician") (some "T") (some "org1") "t0" [] sampleDB).1
      ((repaired_requires_positive_duration ⟨some ("r1", .Repaired), "0", "", ""⟩
        (some "technician") (some "T") (some "org1") "t0" [] sampleDB).2.2.1
        0 (by decide) (by decide))⟩

/-- C9: delivering the same change-feed event twice to the board
projection yields the same column groupings as delivering it once — the
listener's reaction is an idempotent refresh from the authoritative
rows. -/
theorem feed_event_idempotent (ev cache : List MaintenanceRequest)
    (searchTerm priorityFilter : String) :
    boardColumns searchTerm priorityFilter
      (handleFeedEvent ev (handleFeedEvent ev cache))
    = boardColumns searchTerm priorityFilter (handleFeedEvent ev cache) :=
  rfl

/-- C10: invoking the workflow executor with a request id absent from the
locally loaded set performs no store write and resolves as a success. -/
theorem unknown_id_silent_noop (role uid orgId : Option String)
    (now : String) (localRequests : List MaintenanceRequest)
    (input : MutationInput) (db : DBState)
    (h : localRequests.find? (fun r => r.id = input.id) = none) :
    updateStatus role uid orgId now localRequests input db = (db, true) := by
  unfold updateStatus
  rw [h]

/-- Witness for C10: an id absent from an empty local list leaves the
sample store unchanged and reports success. -/
theorem unknown_id_silent_noop_witness :
    updateStatus (some "technician") (some "T") (some "org1") "t0" []
      ⟨"missing", .InProgress, none, none⟩ sampleDB = (sampleDB, true) :=
  unknown_id_silent_noop (some "technician") (some "T") (some "org1") "t0"
    [] ⟨"missing", .InProgress, none, none⟩ sampleDB rfl

/-! ## The Scrap invariant -/

/-- The trigger never unscrapps: if every equipment row with a given id
is already Scrapped, it stays Scrapped after any trigger firing. -/
lemma handle_scrap_preserves_scrapped (oldS newS : MaintenanceStatus)
    (targetId eid : String) (eqp : List Equipment)
    (h : ∀ e ∈ eqp, e.id = eid → e.status = .Scrapped) :
    ∀ e ∈ handle_scrap_equipment oldS newS targetId eqp, e.id = eid →
      e.status = .Scrapped := by
  intro e he hid
  unfold handle_scrap_equipment at he
  split_ifs at he with hc
  · obtain ⟨a, ha, rfl⟩ := List.mem_map.1 he
    by_cases h2 : a.id = targetId
    · rw [if_pos h2]
    · rw [if_neg h2] at hid ⊢
      exact h a ha hid
  · exact h e he hid

/-- A firing trigger (new status Scrap, old status not Scrap) leaves every
equipment row with the referenced id Scrapped. -/
lemma handle_scrap_establishes_scrapped (oldS : MaintenanceStatus)
    (ho : oldS ≠ .Scrap) (targetId : String) (eqp : List Equipment) :
    ∀ e ∈ handle_scrap_equipment oldS .Scrap targetId eqp,
      e.id = targetId → e.status = .Scrapped := by
  intro e he hid
  unfold handle_scrap_equipment at he
  rw [if_pos ⟨rfl, ho⟩] at he
  obtain ⟨a, ha, rfl⟩ := List.mem_map.1 he
  by_cases h2 : a.id = targetId
  · rw [if_pos h2]
  · rw [if_neg h2] at hid
    exact absurd hid h2

/-- The per-row trigger fold of `dbUpdateRequest` preserves
"every equipment row with id `eid` is Scrapped". -/
lemma scrapFold_preserves_scrapped (reqId : String) (u : RequestUpdates)
    (eid : String) :
    ∀ (l : List MaintenanceRequest) (eqp : List Equipment),
      (∀ e ∈ eqp, e.id = eid → e.status = .Scrapped) →
      ∀ e ∈ l.foldl
          (fun acc r =>
            if r.id = reqId then
              handle_scrap_equipment r.status (applyUpdates u r).status
                r.equipment_id acc
            else acc) eqp,
        e.id = eid → e.status = .Scrapped := by
  intro l
  induction l with
  | nil => intro eqp h; simpa using h
  | cons r rest ih =>
    intro eqp h
    rw [List.foldl_cons]
    apply ih
    by_cases h2 : r.id = reqId
    · rw [if_pos h2]
      exact handle_scrap_preserves_scrapped _ _ _ _ _ h
    · rw [if_neg h2]
      exact h

/-- After the trigger fold of an update whose new status is Scrap, the
equipment referenced by any matching request row that was not already
Scrap is Scrapped. -/
lemma scrapFold_scraps (reqId : String) (u : RequestUpdates)
    (hu : u.status = .Scrap) (l : List MaintenanceRequest)
    (r : MaintenanceRequest) (hr : r ∈ l) (hid : r.id = reqId)
    (hst : r.status ≠ .Scrap) (eqp : List Equipment) :
    ∀ e ∈ l.foldl
        (fun acc x =>
          if x.id = reqId then
            handle_scrap_equipment x.status (applyUpdates u x).status
              x.equipment_id acc
          else acc) eqp,
      e.id = r.equipment_id → e.status = .Scrapped := by
  obtain ⟨l1, l2, rfl⟩ := List.append_of_mem hr
  rw [List.foldl_append, List.foldl_cons]
  apply scrapFold_preserves_scrapped
  rw [if_pos hid]
  have hnew : (applyUpdates u r).status = .Scrap := by
    simp [applyUpdates, hu]
  rw [hnew]
  exact handle_scrap_establishes_scrapped r.status hst r.equipment_id _

/-- When the executor finds the request locally, its equipment table is
that of a single `dbUpdateRequest` whose update carries the requested
status. -/
lemma updateStatus_equipment_of_found (role uid orgId : Option String)
    (now : String) (localRequests : List MaintenanceRequest)
    (input : MutationInput) (db : DBState) (c : MaintenanceRequest)
    (hfind : localRequests.find? (fun r => r.id = input.id) = some c) :
    ∃ u : RequestUpdates, u.status = input.status ∧
      (updateStatus role uid orgId now localRequests input db).1.equipment
        = (dbUpdateRequest db input.id u).equipment := by
  refine ⟨{ status := input.status
            updated_at := now
            assigned_technician_id :=
              if input.status = .InProgress
                  ∧ jsIdTruthy c.assigned_technician_id = false
                  ∧ role = some "technician" then
                some uid
              else none
            duration := match input.duration with
              | some d => if d ≠ 0 then some d else none
              | none => none }, rfl, ?_⟩
  unfold updateStatus
  rw [hfind]
  cases input.note <;> rfl

/-- C1: executing a transition to Scrap sets the referenced equipment's
status to Scrapped within the same operation — after a successful Scrap
transition of a request that was not already Scrap, its equipment row is
Scrapped. -/
theorem scrap_transition_scraps_equipment (role uid orgId : Option String)
    (now : String) (localRequests : List MaintenanceRequest)
    (input : MutationInput) (db : DBState) (c r : MaintenanceRequest)
    (hscrap : input.status = .Scrap)
    (hfind : localRequests.find? (fun x => x.id = input.id) = some c)
    (hr : r ∈ db.requests) (hid : r.id = input.id)
    (hst : r.status ≠ .Scrap) :
    ∀ e ∈ (updateStatus role uid orgId now localRequests input
        db).1.equipment,
      e.id = r.equipment_id → e.status = .Scrapped := by
  obtain ⟨u, hu, heqp⟩ := updateStatus_equipment_of_found role uid orgId
    now localRequests input db c hfind
  rw [heqp]
  simp only [dbUpdateRequest]
  exact scrapFold_scraps input.id u (hu.trans hscrap) db.requests r hr hid
    hst db.equipment

/-- Witness for C1: scrapping the sample New request leaves its equipment
row Scrapped; the first conjunct shows the concrete resulting equipment
table, the second applies the invariant at that row. -/
theorem scrap_transition_scraps_equipment_witness :
    (updateStatus (some "manager") (some "M") (some "org1") "t1"
        [sampleRequest] ⟨"r1", .Scrap, none, some "beyond repair"⟩
        sampleDB).1.equipment = [{ id := "e1", status := .Scrapped }]
    ∧ ({ id := "e1", status := .Scrapped } : Equipment).status
        = .Scrapped := by
  refine ⟨by decide, ?_⟩
  exact scrap_transition_scraps_equipment (some "manager") (some "M")
    (some "org1") "t1" [sampleRequest]
    ⟨"r1", .Scrap, none, some "beyond repair"⟩ sampleDB sampleRequest
    sampleRequest rfl (by decide) (by decide) rfl (by decide)
    { id := "e1", status := .Scrapped } (by decide) rfl

/-- C6: a technician executing New→In Progress on a request with no
assigned technician updates status and assigned_technician in one single
write — one update record carries both fields, and every stored row with
the request's id ends In Progress and assigned to the acting
technician. -/
theorem pickup_sets_assignee_atomically (uid : String)
    (orgId : Option String) (now : String)
    (localRequests : List MaintenanceRequest) (input : MutationInput)
    (db : DBState) (c : MaintenanceRequest)
    (hfind : localRequests.find? (fun r => r.id = input.id) = some c)
    (hunassigned : c.assigned_technician_id = none)
    (hstatus : input.status = .InProgress) :
    ∃ u : RequestUpdates,
      u.status = .InProgress ∧ u.assigned_technician_id = some (some uid)
      ∧ (updateStatus (some "technician") (some uid) orgId now
          localRequests input db).1.requests
        = (dbUpdateRequest db input.id u).requests
      ∧ ∀ r' ∈ (updateStatus (some "technician") (some uid) orgId now
            localRequests input db).1.requests,
          r'.id = input.id →
            r'.status = .InProgress
            ∧ r'.assigned_technician_id = some uid := by
  have hcond : input.status = MaintenanceStatus.InProgress
      ∧ jsIdTruthy c.assigned_technician_id = false ∧ True :=
    ⟨hstatus, by rw [hunassigned]; rfl, trivial⟩
  have hmain : (updateStatus (some "technician") (some uid) orgId now
      localRequests input db).1.requests
      = (dbUpdateRequest db input.id
          { status := input.status
            updated_at := now
            assigned_technician_id := some (some uid)
            duration := match input.duration with
              | some d => if d ≠ 0 then some d else none
              | none => none }).requests := by
    simp only [updateStatus, hfind]
    rw [if_pos hcond]
    cases input.note <;> rfl
  refine ⟨{ status := input.status
            updated_at := now
            assigned_technician_id := some (some uid)
            duration := match input.duration with
              | some d => if d ≠ 0 then some d else none
              | none => none }, hstatus, rfl, hmain, ?_⟩
  intro r' hr' hid'
  rw [hmain] at hr'
  simp only [dbUpdateRequest] at hr'
  obtain ⟨a, ha, rfl⟩ := List.mem_map.1 hr'
  by_cases hcase : a.id = input.id
  · rw [if_pos hcase]
    exact ⟨by simp [applyUpdates, hstatus], by simp [applyUpdates]⟩
  · rw [if_neg hcase] at hid'
    exact absurd hid' hcase

/-- Witness for C6: technician "T" picks up the unassigned sample New
request by moving it to In Progress; the stored row ends In Progress and
assigned to "T". -/
theorem pickup_sets_assignee_atomically_witness :
    ∃ u : RequestUpdates,
      u.status = .InProgress ∧ u.assigned_technician_id = some (some "T")
      ∧ (updateStatus (some "technician") (some "T") (some "org1") "t1"
          [sampleRequest] ⟨"r1", .InProgress, none, none⟩
          sampleDB).1.requests
        = (dbUpdateRequest sampleDB "r1" u).requests
      ∧ ∀ r' ∈ (updateStatus (some "technician") (some "T") (some "org1")
            "t1" [sampleRequest] ⟨"r1", .InProgress, none, none⟩
            sampleDB).1.requests,
          r'.id = "r1" →
            r'.status = .InProgress
            ∧ r'.assigned_technician_id = some "T" :=
  pickup_sets_assignee_atomically "T" (some "org1") "t1" [sampleRequest]
    ⟨"r1", .InProgress, none, none⟩ sampleDB sampleRequest (by decide)
    rfl rfl

/-- C8 helper: a Preventive form value with a falsy scheduled_date fails
the schema check. -/
lemma requestSchemaCheck_false_of_preventive_no_date
    (v : RequestFormValues) (ht : v.type = "Preventive")
    (hs : jsIdTruthy v.scheduled_date = false) :
    requestSchemaCheck v = false := by
  unfold requestSchemaCheck
  rw [ht, hs]
  simp

/-- C8: creating a request with type=Preventive and no scheduled_date is
rejected at input validation with no write, while a validated creation
with a scheduled_date stores it and a read-back of the stored request
returns the value unchanged. -/
theorem preventive_scheduled_date_roundtrip (v : RequestFormValues)
    (uid orgId freshId now : String) (db : DBState) :
    (v.type = "Preventive" → jsIdTruthy v.scheduled_date = false →
      submitCreateForm v uid orgId freshId now db = db)
    ∧ (∀ s : String, requestSchemaCheck v = true → v.scheduled_date = some s
        → s ≠ "" → (∀ r ∈ db.requests, r.id ≠ freshId) →
        ∃ row,
          readBackRequest (submitCreateForm v uid orgId freshId now db)
            freshId = some row
          ∧ row.scheduled_date = some s) := by
  constructor
  · intro ht hs
    unfold submitCreateForm
    rw [requestSchemaCheck_false_of_preventive_no_date v ht hs]
    rfl
  · intro s hcheck hsched hsne hfresh
    refine ⟨createPayloadRow v uid orgId freshId now, ?_, ?_⟩
    · unfold submitCreateForm readBackRequest
      rw [if_pos hcheck, List.find?_append]
      have h1 : db.requests.find? (fun r => r.id = freshId) = none := by
        rw [List.find?_eq_none]
        intro x hx
        simpa using hfresh x hx
      rw [h1]
      simp [createPayloadRow]
    · simp [createPayloadRow, hsched, jsIdTruthy, hsne]

/-- Witness for C8: a concrete valid Preventive form value with scheduled
date "2026-01-01T10:00" reads back unchanged from an empty store. -/
theorem preventive_scheduled_date_roundtrip_witness :
    ∃ row,
      readBackRequest
        (submitCreateForm
          { title := "Quarterly inspection", description := none,
            equipment_id := "e1", type := "Preventive", priority := "Medium",
            status := .New, assigned_team_id := none,
            assigned_technician_id := none, equipment_category_id := none,
            scheduled_date := some "2026-01-01T10:00", duration := none }
          "creator" "org1" "r9" "t0" ⟨[], [], []⟩) "r9" = some row
      ∧ row.scheduled_date = some "2026-01-01T10:00" :=
  (preventive_scheduled_date_roundtrip
    { title := "Quarterly inspection", description := none,
      equipment_id := "e1", type := "Preventive", priority := "Medium",
      status := .New, assigned_team_id := none,
      assigned_technician_id := none, equipment_category_id := none,
      scheduled_date := some "2026-01-01T10:00", duration := none }
    "creator" "org1" "r9" "t0" ⟨[], [], []⟩).2 "2026-01-01T10:00"
    (by decide) rfl (by decide) (by intro r hr; simp at hr)

end GearGuard
